import Mathlib

/-!
# ServVia context-and-safety reconciliation engine: a shallow embedding

This file embeds, in Lean, the core pipeline of the ServVia health-assistant
repository (`rag_service/execute_rag.py`, `servvia2/conversation/manager.py`,
`generation/generate_response.py`) and proves or refutes the specification
claims about it.

Python strings are modelled as Lean `String`s; Python's `needle in hay`
substring test, `str.lower`, `str.upper`, `str.strip`, slicing and
`str.replace` are given explicit executable models below.  Python's
`list(set(xs))`, whose iteration order is unspecified (hash dependent), is
modelled by the predicate `isSetListing xs out`, which holds of every list
`out` that a Python run could produce.  External collaborators (retrieval,
OpenAI generation, trust engine, chronobiology) are modelled by outcome
parameters, as the spec treats them as out-of-scope request/response services.
-/

set_option linter.unusedVariables false

/-! ## String primitives -/

/-- Python `s.lower()` (ASCII letters, as all lexicon entries are ASCII). -/
def pyLower (s : String) : String := String.mk (s.data.map Char.toLower)

/-- Python `s.upper()` (ASCII letters). -/
def pyUpper (s : String) : String := String.mk (s.data.map Char.toUpper)

/-- Python `s.strip()`: drop whitespace from both ends. -/
def pyStrip (s : String) : String :=
  String.mk (((s.data.dropWhile Char.isWhitespace).reverse.dropWhile Char.isWhitespace).reverse)

/-- Python `s[:n]`: the first `n` characters. -/
def strTake (s : String) (n : Nat) : String := String.mk (s.data.take n)

/-- Python `needle in hay`: substring occurrence test. -/
def strContains (hay needle : String) : Bool :=
  (List.range (hay.data.length + 1)).any (fun i => needle.data.isPrefixOf (hay.data.drop i))

/-- Fuel-driven worker for `pyReplace` (structural recursion so the kernel
can evaluate it). The fuel is an upper bound on the number of characters
consumed, which suffices because each step consumes at least one. -/
def replaceCharsFuel (pat rep : List Char) : Nat → List Char → List Char
  | _, [] => []
  | 0, s => s
  | Nat.succ fuel, c :: rest =>
    if pat.isPrefixOf (c :: rest) then
      rep ++ replaceCharsFuel pat rep fuel ((c :: rest).drop pat.length)
    else
      c :: replaceCharsFuel pat rep fuel rest

/-- Python `s.replace(pat, rep)` for a non-empty pattern (the pipeline only
replaces the non-empty tag `"medication: "`). -/
def pyReplace (s pat rep : String) : String :=
  if pat.data.isEmpty then s
  else String.mk (replaceCharsFuel pat.data rep.data s.data.length s.data)

/-- `true` iff the list has no duplicate (used to characterise Python sets). -/
def listNodup : List String → Bool
  | [] => true
  | a :: rest => !(rest.contains a) && listNodup rest

/-- Python `list(set(xs))` is unspecified up to ordering: `out` is one of its
possible values iff it is duplicate-free and has exactly the members of `xs`. -/
def isSetListing (xs out : List String) : Bool :=
  out.all (fun a => xs.contains a) && xs.all (fun a => out.contains a) && listNodup out

/-! ## Emergency detection system (`execute_rag.py`) -/

/-- `EMERGENCY_RESPONSES`: the fixed canned response per emergency category. -/
def EMERGENCY_RESPONSES : List (String × String) :=
  [("cardiac_arrest", "🚨 **EMERGENCY - CARDIAC ARREST / NOT BREATHING**

**CALL 112 (India) / 911 (US) / 999 (UK) IMMEDIATELY**

**CPR Steps (Hands-Only for untrained):**

1. **CHECK** - Tap shoulders firmly, shout \"Are you OK?\"
2. **CALL** - If no response, call emergency services immediately
3. **PUSH** - Start chest compressions:
   - Place heel of hand on center of chest
   - Push hard and fast (at least 2 inches deep)
   - Rate: 100-120 compressions per minute
   - Allow full chest recoil between compressions

4. **If trained in CPR:**
   - After 30 compressions, give 2 rescue breaths
   - Tilt head back, lift chin, pinch nose
   - Breathe into mouth until chest rises

5. **CONTINUE** until help arrives or person responds

**🔴 This is a life-threatening emergency. Every second counts.**"),
   ("choking", "🚨 **EMERGENCY - CHOKING**

**CALL 112 (India) / 911 (US) / 999 (UK)**

**For ADULTS - Heimlich Maneuver:**

1. Stand behind the person
2. Make a fist with one hand
3. Place fist just above the belly button
4. Grasp fist with other hand
5. Give quick, upward thrusts
6.  Repeat until object is expelled

**For INFANTS (under 1 year):**
1. Place face-down on your forearm
2. Give 5 back blows between shoulder blades
3. Turn over, give 5 chest thrusts
4. Repeat until object comes out

**If person becomes unconscious, start CPR.**

**🔴 This is a life-threatening emergency.**"),
   ("cardiac", "🚨 **EMERGENCY - POSSIBLE HEART ATTACK**

**CALL 112 (India) / 911 (US) / 999 (UK) IMMEDIATELY**

**While waiting for help:**

1. Have the person sit or lie in a comfortable position
2.  Loosen any tight clothing
3. If available and not allergic, give aspirin (325mg, chew don\x27t swallow)
4. Stay calm and reassure the person
5. Be prepared to perform CPR if they become unresponsive
6. Do NOT let them walk or exert themselves

**Warning signs:**
- Chest pain or pressure
- Pain spreading to arm, jaw, or back
- Shortness of breath
- Cold sweat, nausea
- Lightheadedness

**🔴 Do NOT drive yourself to the hospital. Wait for ambulance.**"),
   ("stroke", "🚨 **EMERGENCY - POSSIBLE STROKE**

**CALL 112 (India) / 911 (US) / 999 (UK) IMMEDIATELY**

**Remember F.A.S. T. :**

- **F**ace: Ask them to smile.  Does one side droop?
- **A**rms: Ask them to raise both arms. Does one drift down?
- **S**peech: Ask them to repeat a phrase. Is it slurred?
- **T**ime: If ANY of these signs, call emergency immediately!

**While waiting:**
1. Note the TIME symptoms started (critical for treatment)
2. Keep them calm and lying down
3. Do NOT give food, water, or medication
4.  Loosen tight clothing
5. If unconscious, place in recovery position

**🔴 Time is brain.  Every minute matters.**"),
   ("mental_health", "🚨 **You Are Not Alone - Help Is Available**

**Please reach out to someone right now:**

**Crisis Helplines:**
- 🇮🇳 India: iCall - 9152987821 | Vandrevala Foundation - 1860-2662-345
- 🇺🇸 USA: 988 (Suicide & Crisis Lifeline)
- 🇬🇧 UK: 116 123 (Samaritans)
- 🌍 International: findahelpline.com

**If you or someone is in immediate danger:**
Call 112 (India) / 911 (US) / 999 (UK)

**Remember:**
- This feeling is temporary
- You matter and your life has value
- Professional help works - millions have recovered
- Reaching out is a sign of strength, not weakness

**Please talk to someone.  We care about you.  💙**"),
   ("poisoning", "🚨 **EMERGENCY - POISONING / OVERDOSE**

**CALL POISON CONTROL IMMEDIATELY:**
- 🇮🇳 India: 1800-11-6117 (AIIMS)
- 🇺🇸 USA: 1-800-222-1222
- 🇬🇧 UK: 111

**Do NOT:**
- Induce vomiting unless told to by poison control
- Give anything to eat or drink
- Wait for symptoms to appear

**Do:**
1. Call poison control immediately
2. Have the container/substance ready to describe
3. Know the person\x27s age and weight
4. Note the time of exposure
5. If on skin, remove clothing and rinse with water
6. If in eyes, rinse with water for 15-20 minutes

**🔴 This is a medical emergency. Call immediately.**"),
   ("allergic_reaction", "🚨 **EMERGENCY - SEVERE ALLERGIC REACTION (ANAPHYLAXIS)**

**CALL 112 (India) / 911 (US) / 999 (UK)**

**If person has an EpiPen:**
1. Remove blue safety cap
2. Press orange tip firmly into outer thigh
3.  Hold for 10 seconds
4.  Note the time

**While waiting for help:**
1.  Have person lie down with legs elevated
2.  Loosen tight clothing
3. If vomiting, turn on side
4. Stay with them constantly
5. Be ready to perform CPR

**Signs of anaphylaxis:**
- Difficulty breathing, wheezing
- Swelling of face, lips, tongue
- Rapid heartbeat
- Dizziness or fainting
- Hives or rash

**🔴 Anaphylaxis can be fatal within minutes. Call immediately.**"),
   ("severe_bleeding", "🚨 **EMERGENCY - SEVERE BLEEDING**

**CALL 112 (India) / 911 (US) / 999 (UK)**

**Immediate steps:**

1. **Apply direct pressure** - Use clean cloth, press firmly
2. **Don\x27t remove the cloth** - Add more layers on top if soaked
3. **Elevate** - Raise injured area above heart level if possible
4. **Apply pressure to pressure points** if direct pressure doesn\x27t work
5. **Use tourniquet** only as last resort for life-threatening limb bleeding

**Do NOT:**
- Remove embedded objects
- Apply tourniquet unless trained and necessary
- Stop applying pressure to check the wound

**🔴 Call emergency services immediately for severe bleeding.**")]

/-- The generic fallback template in `get_emergency_response`. -/
def GENERIC_EMERGENCY_RESPONSE : String :=
  "🚨 **EMERGENCY DETECTED**

**CALL 112 (India) / 911 (US) / 999 (UK)**

Please describe the emergency to the dispatcher.
Stay calm and follow their instructions.

**This is a medical emergency. Professional help is essential.**"

/-- `emergency_keywords` from `check_emergency`, in the dict insertion order
the Python loop iterates in (the priority order). -/
def emergency_keywords : List (String × List String) :=
  [("cardiac_arrest", ["cpr", "not breathing", "stopped breathing", "no pulse", "unconscious not breathing"]),
   ("choking", ["choking", "cant breathe", "can\x27t breathe", "something stuck throat", "heimlich"]),
   ("cardiac", ["heart attack", "chest pain", "chest pressure", "heart pain"]),
   ("stroke", ["stroke", "face drooping", "arm weakness", "slurred speech", "sudden confusion"]),
   ("mental_health", ["suicide", "kill myself", "want to die", "end my life", "self harm", "hurt myself"]),
   ("poisoning", ["poisoning", "overdose", "swallowed poison", "took too many pills", "drank bleach"]),
   ("allergic_reaction", ["anaphylaxis", "allergic reaction severe", "cant breathe allergy", "throat closing"]),
   ("severe_bleeding", ["severe bleeding", "wont stop bleeding", "blood everywhere", "arterial bleeding"])]

/-- Does the (lower-cased) query match any trigger of this category entry? -/
def matchesCategory (ql : String) (entry : String × List String) : Bool :=
  entry.2.any (fun kw => strContains ql kw)

/-- `check_emergency(query)`: first category (in priority order) with a
trigger occurring in the lower-cased query, else `none`. -/
def check_emergency (query : String) : Option String :=
  ((emergency_keywords.find? (matchesCategory (pyLower query)))).map (fun e => e.1)

/-- `get_emergency_response(emergency_type)`: table lookup with the generic
fallback as default. -/
def get_emergency_response (emergency_type : String) : String :=
  (((EMERGENCY_RESPONSES.find? (fun e => e.1 == emergency_type))).map (fun e => e.2)).getD
    GENERIC_EMERGENCY_RESPONSE

example : check_emergency "he is not breathing, start CPR" = some "cardiac_arrest" := by decide
example : check_emergency "hello there" = none := by decide
example : check_emergency "I have chest pain and face drooping" = some "cardiac" := by decide

/-! ## Drug-herb interaction database (`execute_rag.py`) -/

/-- One `INTERACTION_DATABASE` entry's payload. -/
structure InteractionData where
  drugs : List String
  severity : String
  reason : String
  alternatives : List String
deriving Repr, DecidableEq

/-- An interaction warning as built by `check_interactions`. -/
structure InteractionWarning where
  herb : String
  medication : String
  severity : String
  reason : String
  alternatives : List String
deriving Repr, DecidableEq

/-- `INTERACTION_DATABASE`: static herb → interaction data mapping. -/
def INTERACTION_DATABASE : List (String × InteractionData) :=
  [("ginger",
    { drugs := ["aspirin", "ibuprofen", "warfarin", "blood thinner", "coumadin", "plavix", "clopidogrel", "anticoagulant"],
      severity := "HIGH",
      reason := "Ginger inhibits platelet aggregation (blood thinning effect).  Combined with anticoagulants, this significantly increases bleeding risk - bruising, prolonged bleeding from cuts, or internal bleeding.",
      alternatives := ["Peppermint oil (topical)", "Lavender aromatherapy", "Cold compress", "Chamomile tea"] }),
   ("turmeric",
    { drugs := ["aspirin", "warfarin", "blood thinner", "coumadin", "metformin", "diabetes medication", "insulin"],
      severity := "HIGH",
      reason := "Curcumin has antiplatelet effects and can lower blood sugar. Risk of bleeding with anticoagulants and hypoglycemia with diabetes medications.",
      alternatives := ["Boswellia (for inflammation)", "Cold compress", "Rest and elevation", "Omega-3 foods"] }),
   ("garlic",
    { drugs := ["aspirin", "warfarin", "blood thinner", "hiv medication", "saquinavir"],
      severity := "MODERATE",
      reason := "Garlic has blood-thinning properties. Use only small culinary amounts with blood thinners.",
      alternatives := ["Onion (milder effect)", "Oregano", "Thyme"] }),
   ("ashwagandha",
    { drugs := ["thyroid medication", "levothyroxine", "synthroid", "sedative", "benzodiazepine", "immunosuppressant"],
      severity := "HIGH",
      reason := "Ashwagandha stimulates thyroid function and has sedative properties. May interfere with thyroid medication dosing and compound sedative effects.",
      alternatives := ["Chamomile tea (for stress)", "Lavender aromatherapy", "Deep breathing exercises", "Brahmi"] }),
   ("licorice",
    { drugs := ["blood pressure medication", "bp medicine", "antihypertensive", "diuretic", "digoxin", "heart medication"],
      severity := "HIGH",
      reason := "Glycyrrhizin in licorice raises blood pressure and depletes potassium.  Counteracts BP medications and can cause dangerous heart rhythms with digoxin.",
      alternatives := ["Honey (for sore throat)", "Slippery elm", "Marshmallow root"] }),
   ("ginseng",
    { drugs := ["warfarin", "blood thinner", "diabetes medication", "metformin", "insulin", "antidepressant", "maoi"],
      severity := "MODERATE",
      reason := "Ginseng affects blood clotting and blood sugar levels. Has stimulant properties that may interact with MAOIs.",
      alternatives := ["Green tea (moderate amounts)", "Peppermint tea", "Amla"] }),
   ("st johns wort",
    { drugs := ["antidepressant", "ssri", "birth control", "contraceptive", "hiv medication", "immunosuppressant", "warfarin"],
      severity := "CRITICAL",
      reason := "St. John\x27s Wort induces liver enzymes (CYP450), dramatically reducing effectiveness of many medications. Risk of serotonin syndrome with SSRIs.",
      alternatives := ["Lavender", "Chamomile", "Exercise", "Light therapy"] }),
   ("valerian",
    { drugs := ["sedative", "benzodiazepine", "sleep medication", "ambien", "alcohol"],
      severity := "HIGH",
      reason := "Valerian has sedative effects that compound with other CNS depressants, risking over-sedation or respiratory depression.",
      alternatives := ["Chamomile tea", "Warm milk", "Lavender aromatherapy", "Sleep hygiene practices"] }),
   ("kava",
    { drugs := ["alcohol", "sedative", "benzodiazepine", "antidepressant", "levodopa"],
      severity := "CRITICAL",
      reason := "Kava has significant hepatotoxicity risk and compounds with other sedatives. Can interfere with dopamine medications.",
      alternatives := ["Chamomile", "Passionflower", "Lavender"] }),
   ("ginkgo",
    { drugs := ["aspirin", "warfarin", "blood thinner", "nsaid", "ibuprofen"],
      severity := "HIGH",
      reason := "Ginkgo inhibits platelet activating factor, increasing bleeding risk with anticoagulants.",
      alternatives := ["Brahmi (for cognitive support)", "Green tea", "Omega-3 fatty acids"] }),
   ("echinacea",
    { drugs := ["immunosuppressant", "cyclosporine", "corticosteroid"],
      severity := "MODERATE",
      reason := "Echinacea stimulates the immune system, potentially counteracting immunosuppressive therapy.",
      alternatives := ["Vitamin C foods", "Zinc lozenges", "Rest and hydration"] })]

/-- Python `herb_lower in INTERACTION_DATABASE` / `INTERACTION_DATABASE[herb_lower]`. -/
def dbFind (herbLower : String) : Option InteractionData :=
  ((INTERACTION_DATABASE.find? (fun e => e.1 == herbLower))).map (fun e => e.2)

/-- The inner drug-keyword scan: `dangerous_drug in med_lower or med_lower in dangerous_drug`. -/
def drugMatches (data : InteractionData) (medLower : String) : Bool :=
  data.drugs.any (fun d => strContains medLower d || strContains d medLower)

/-- One (herb, medication) pair: emits the warning iff some drug keyword
matches; the Python `break` makes the warning independent of which keyword
matched, so an existence test is a faithful translation. -/
def medWarning (herb : String) (data : InteractionData) (med : String) : Option InteractionWarning :=
  if drugMatches data (pyStrip (pyLower med)) then
    some { herb := herb, medication := med, severity := data.severity,
           reason := data.reason, alternatives := data.alternatives }
  else none

/-- All warnings one herb contributes, scanning the medication list in order. -/
def herbWarnings (medications : List String) (herb : String) : List InteractionWarning :=
  match dbFind (pyStrip (pyLower herb)) with
  | some data => medications.filterMap (medWarning herb data)
  | none => []

/-- `check_interactions(herbs, medications)` from `execute_rag.py`. -/
def check_interactions (herbs medications : List String) : List InteractionWarning :=
  if herbs.isEmpty || medications.isEmpty then []
  else herbs.flatMap (herbWarnings medications)

example :
    (check_interactions ["turmeric"] ["warfarin"]).map (fun w => (w.herb, w.medication, w.severity)) =
      [("turmeric", "warfarin", "HIGH")] := by decide

example : check_interactions ["turmeric"] [] = [] := by decide

/-! ## Entity extraction (`extract_entities` in `execute_rag.py`) -/

/-- Result record of `extract_entities`. -/
structure ExtractedEntities where
  conditions : List String
  herbs : List String
  medications : List String
deriving Repr, DecidableEq

/-- `condition_keywords` of `extract_entities`. -/
def condition_keywords : List (String × List String) :=
  [("headache", ["headache", "head hurts", "head pain", "head ache", "migraine"]),
   ("fever", ["fever", "temperature", "feverish", "high temperature"]),
   ("cold", ["cold", "runny nose", "sneezing", "stuffy nose", "congestion"]),
   ("cough", ["cough", "coughing", "dry cough", "wet cough"]),
   ("nausea", ["nausea", "nauseous", "feeling sick", "queasy", "want to vomit"]),
   ("indigestion", ["indigestion", "bloating", "gas", "stomach upset", "acidity", "heartburn", "acid reflux"]),
   ("sore throat", ["sore throat", "throat pain", "throat hurts", "scratchy throat"]),
   ("anxiety", ["anxiety", "anxious", "worried", "nervous", "panic"]),
   ("stress", ["stress", "stressed", "overwhelmed", "tension"]),
   ("insomnia", ["insomnia", "cant sleep", "can\x27t sleep", "trouble sleeping", "sleepless"]),
   ("fatigue", ["fatigue", "tired", "exhausted", "no energy", "weakness"]),
   ("joint pain", ["joint pain", "arthritis", "joints hurt", "knee pain", "joint ache"]),
   ("back pain", ["back pain", "backache", "back hurts", "lower back"]),
   ("toothache", ["toothache", "tooth pain", "tooth hurts", "dental pain"]),
   ("acne", ["acne", "pimples", "breakout", "zits", "blemishes"]),
   ("constipation", ["constipation", "constipated", "cant poop"]),
   ("diarrhea", ["diarrhea", "loose stools", "upset stomach"])]

/-- `herb_list` of `extract_entities`. -/
def herb_list : List String :=
  ["ginger", "turmeric", "peppermint", "garlic", "honey", "tulsi", "basil",
   "ashwagandha", "chamomile", "cinnamon", "clove", "licorice", "ginseng",
   "valerian", "neem", "amla", "fennel", "cumin", "coriander", "fenugreek",
   "mint", "lavender", "eucalyptus", "tea tree", "aloe vera", "coconut oil",
   "ginkgo", "echinacea", "elderberry", "brahmi", "giloy", "triphala",
   "moringa", "shatavari", "ajwain", "cardamom", "black pepper"]

/-- `medication_keywords` of `extract_entities`. -/
def medication_keywords : List (String × List String) :=
  [("aspirin", ["aspirin", "disprin", "ecosprin"]),
   ("ibuprofen", ["ibuprofen", "advil", "motrin", "brufen"]),
   ("paracetamol", ["paracetamol", "acetaminophen", "tylenol", "crocin", "dolo"]),
   ("warfarin", ["warfarin", "coumadin"]),
   ("blood thinner", ["blood thinner", "blood thinners", "anticoagulant"]),
   ("metformin", ["metformin", "glycomet", "glucophage"]),
   ("insulin", ["insulin"]),
   ("diabetes medication", ["diabetes medication", "diabetes medicine", "sugar medicine"]),
   ("blood pressure medication", ["blood pressure", "bp medicine", "bp medication", "antihypertensive"]),
   ("thyroid medication", ["thyroid", "levothyroxine", "synthroid", "thyroxine", "eltroxin"]),
   ("antidepressant", ["antidepressant", "ssri", "prozac", "zoloft", "lexapro"]),
   ("sedative", ["sedative", "sleeping pill", "sleep medication", "benzodiazepine"]),
   ("statin", ["statin", "atorvastatin", "cholesterol medicine"]),
   ("pan d", ["pan d", "pantoprazole", "pantop", "ppi"]),
   ("omeprazole", ["omeprazole", "omez", "prilosec"])]

/-- `extract_entities(query)`.  The Python `if condition not in conditions`
membership guard never fires because the dict keys are distinct, so a
`filterMap` over the keyword tables is a faithful translation. -/
def extract_entities (query : String) : ExtractedEntities :=
  let ql := pyLower query
  { conditions := condition_keywords.filterMap
      (fun e => if e.2.any (fun kw => strContains ql kw) then some e.1 else none),
    herbs := herb_list.filter (fun h => strContains ql h),
    medications := medication_keywords.filterMap
      (fun e => if e.2.any (fun kw => strContains ql kw) then some e.1 else none) }

example : (extract_entities "I have a splitting headache").conditions = ["headache"] := by decide
example : extract_entities "i stopped taking warfarin" =
    { conditions := [], herbs := [], medications := ["warfarin"] } := by decide

/-! ## Conversation manager (`servvia2/conversation/manager.py`) -/

/-- One conversation message (`role`, `content`); timestamps and metadata
carry no behaviour relevant to the claims and are omitted. -/
structure Message where
  role : String
  content : String
deriving Repr, DecidableEq

/-- `UserContext` as stored by the manager: accumulated conditions, herbs
and medications (append-ordered lists, deduplicated on insertion). -/
structure StoredContext where
  conditions : List String
  herbs : List String
  medications : List String
deriving Repr, DecidableEq

/-- The per-turn delta returned by `update_context`. -/
structure ContextChanges where
  added : List String
  removed : List String
deriving Repr, DecidableEq

/-- `MAX_HISTORY` of `ConversationManager`. -/
def MAX_HISTORY : Nat := 20

/-- `REMOVAL_KEYWORDS` of `ConversationManager`. -/
def REMOVAL_KEYWORDS : List String :=
  ["stopped taking", "stop taking", "no longer take", "not taking anymore",
   "don\x27t take anymore", "dont take anymore", "stopped using", "no longer use",
   "quit taking", "off of", "discontinued", "not on anymore", "no longer on",
   "stopped", "quit", "gave up", "not anymore", "no more"]

/-- `ADDITION_KEYWORDS` of `ConversationManager`. -/
def ADDITION_KEYWORDS : List String :=
  ["i take", "i am taking", "i\x27m taking", "taking", "i use", "i am using",
   "i\x27m using", "i am on", "i\x27m on", "prescribed", "started taking",
   "doctor gave", "put me on", "been taking"]

/-- `CONDITION_KEYWORDS` of `ConversationManager` (distinct from the
extractor's table in `execute_rag.py`). -/
def CONDITION_KEYWORDS : List (String × List String) :=
  [("headache", ["headache", "head hurts", "head pain", "migraine", "head ache"]),
   ("fever", ["fever", "temperature", "feverish", "high temp"]),
   ("cold", ["cold", "runny nose", "sneezing", "stuffy nose", "congestion", "flu"]),
   ("cough", ["cough", "coughing", "dry cough", "wet cough", "persistent cough"]),
   ("nausea", ["nausea", "nauseous", "queasy", "want to vomit", "feeling sick"]),
   ("indigestion", ["indigestion", "bloating", "gas", "acidity", "heartburn", "acid reflux", "stomach upset"]),
   ("sore throat", ["sore throat", "throat pain", "throat hurts", "scratchy throat"]),
   ("anxiety", ["anxiety", "anxious", "worried", "nervous", "panic", "stressed"]),
   ("stress", ["stress", "stressed", "overwhelmed", "burnout", "tension"]),
   ("insomnia", ["insomnia", "cant sleep", "can\x27t sleep", "trouble sleeping", "sleepless", "sleep problem"]),
   ("fatigue", ["fatigue", "tired", "exhausted", "no energy", "low energy", "weakness"]),
   ("joint pain", ["joint pain", "arthritis", "joints hurt", "knee pain", "joint ache"]),
   ("back pain", ["back pain", "backache", "back hurts", "lower back pain"]),
   ("toothache", ["toothache", "tooth pain", "tooth hurts", "dental pain"]),
   ("acne", ["acne", "pimples", "breakout", "zits", "skin breakout"]),
   ("diarrhea", ["diarrhea", "loose stools", "loose motions", "upset stomach"]),
   ("constipation", ["constipation", "constipated", "irregular bowel"])]

/-- `HERB_KEYWORDS` of `ConversationManager`. -/
def HERB_KEYWORDS : List String :=
  ["ginger", "turmeric", "peppermint", "mint", "garlic", "honey", "tulsi", "basil",
   "ashwagandha", "chamomile", "cinnamon", "clove", "licorice", "ginseng", "valerian",
   "neem", "amla", "fennel", "cumin", "coriander", "fenugreek", "ajwain", "cardamom",
   "lavender", "eucalyptus", "tea tree", "aloe vera", "aloe", "coconut oil",
   "ginkgo", "echinacea", "elderberry", "brahmi", "giloy", "triphala", "moringa",
   "shatavari", "black pepper", "cayenne", "oregano", "thyme", "rosemary"]

/-- `MEDICATION_KEYWORDS` of `ConversationManager`. -/
def MEDICATION_KEYWORDS : List (String × List String) :=
  [("aspirin", ["aspirin", "disprin", "ecosprin"]),
   ("ibuprofen", ["ibuprofen", "advil", "motrin", "brufen"]),
   ("paracetamol", ["paracetamol", "acetaminophen", "tylenol", "crocin", "dolo"]),
   ("warfarin", ["warfarin", "coumadin"]),
   ("blood thinner", ["blood thinner", "blood thinners", "anticoagulant"]),
   ("metformin", ["metformin", "glycomet", "glucophage"]),
   ("insulin", ["insulin"]),
   ("blood pressure medication", ["blood pressure", "bp medicine", "bp medication", "bp med", "antihypertensive", "amlodipine", "lisinopril"]),
   ("thyroid medication", ["thyroid", "levothyroxine", "synthroid", "thyroxine", "eltroxin"]),
   ("antidepressant", ["antidepressant", "ssri", "prozac", "zoloft", "lexapro", "sertraline", "fluoxetine"]),
   ("sedative", ["sedative", "sleeping pill", "sleep medication", "benzodiazepine", "alprazolam", "xanax"]),
   ("statin", ["statin", "atorvastatin", "cholesterol medicine", "lipitor"]),
   ("pan d", ["pan d", "pan-d"]),
   ("pantoprazole", ["pantoprazole", "pantop", "protonix"]),
   ("omeprazole", ["omeprazole", "omez", "prilosec"]),
   ("metoprolol", ["metoprolol", "beta blocker"]),
   ("prednisone", ["prednisone", "steroid", "corticosteroid"]),
   ("antibiotic", ["antibiotic", "amoxicillin", "azithromycin", "ciprofloxacin"])]

/-- `add_message`: append, then FIFO-trim the history to the last
`MAX_HISTORY` entries. -/
def add_message (history : List Message) (m : Message) : List Message :=
  let h := history ++ [m]
  if MAX_HISTORY < h.length then h.drop (h.length - MAX_HISTORY) else h

/-- `get_history`: the stored message list. -/
def get_history (history : List Message) : List Message := history

/-- The per-message formatting of `get_formatted_history`: role prefix plus
truncation of contents longer than 500 characters. -/
def formatMessage (m : Message) : String :=
  let role := if m.role = "user" then "User" else "ServVia"
  let content := if 500 < m.content.length then strTake m.content 500 ++ "..." else m.content
  role ++ ": " ++ content

/-- `get_formatted_history(user_id, max_messages)`: the last `maxMessages`
messages, one formatted line each, joined by newlines. -/
def get_formatted_history (history : List Message) (maxMessages : Nat) : String :=
  if history.isEmpty then ""
  else String.intercalate "\n" ((history.drop (history.length - maxMessages)).map formatMessage)

/-- Removal-branch step for one `MEDICATION_KEYWORDS` entry: if any trigger
keyword occurs in the query and the canonical name is stored, erase it and
record the tagged removal. -/
def removalStepMed (ql : String) (st : List String × List String) (entry : String × List String) :
    List String × List String :=
  if entry.2.any (fun kw => strContains ql kw) then
    if st.1.contains entry.1 then
      (st.1.erase entry.1, st.2 ++ ["medication: " ++ entry.1])
    else st
  else st

/-- Removal-branch step for one herb name. -/
def removalStepHerb (ql : String) (st : List String × List String) (herb : String) :
    List String × List String :=
  if strContains ql herb then
    if st.1.contains herb then
      (st.1.erase herb, st.2 ++ ["herb: " ++ herb])
    else st
  else st

/-- Addition-branch step for one `CONDITION_KEYWORDS` entry. -/
def additionStepCond (ql : String) (st : List String × List String) (entry : String × List String) :
    List String × List String :=
  if entry.2.any (fun kw => strContains ql kw) then
    if st.1.contains entry.1 then st
    else (st.1 ++ [entry.1], st.2 ++ ["condition: " ++ entry.1])
  else st

/-- Addition-branch step for one herb name. -/
def additionStepHerb (ql : String) (st : List String × List String) (herb : String) :
    List String × List String :=
  if strContains ql herb then
    if st.1.contains herb then st
    else (st.1 ++ [herb], st.2 ++ ["herb: " ++ herb])
  else st

/-- Addition-branch step for one `MEDICATION_KEYWORDS` entry: the Python
loop breaks at the first trigger found in the query and uses that keyword's
length in the short-token guard. -/
def additionStepMed (ql : String) (isAdd : Bool) (st : List String × List String)
    (entry : String × List String) : List String × List String :=
  match entry.2.find? (fun kw => strContains ql kw) with
  | none => st
  | some kw =>
    if isAdd || 3 < kw.length then
      if st.1.contains entry.1 then st
      else (st.1 ++ [entry.1], st.2 ++ ["medication: " ++ entry.1])
    else st

/-- `update_context(user_id, query)`: the reconciliation step.  Returns the
delta and the new stored context (the Python method mutates the store). -/
def update_context (ctx : StoredContext) (query : String) : ContextChanges × StoredContext :=
  let ql := pyLower query
  let isRemoval := REMOVAL_KEYWORDS.any (fun kw => strContains ql kw)
  if isRemoval then
    let medsR := MEDICATION_KEYWORDS.foldl (removalStepMed ql) (ctx.medications, [])
    let herbsR := HERB_KEYWORDS.foldl (removalStepHerb ql) (ctx.herbs, medsR.2)
    ({ added := [], removed := herbsR.2 },
     { conditions := ctx.conditions, herbs := herbsR.1, medications := medsR.1 })
  else
    let condsA := CONDITION_KEYWORDS.foldl (additionStepCond ql) (ctx.conditions, [])
    let herbsA := HERB_KEYWORDS.foldl (additionStepHerb ql) (ctx.herbs, condsA.2)
    let isAdd := ADDITION_KEYWORDS.any (fun kw => strContains ql kw)
    let medsA := MEDICATION_KEYWORDS.foldl (additionStepMed ql isAdd) (ctx.medications, herbsA.2)
    ({ added := medsA.2, removed := [] },
     { conditions := condsA.1, herbs := herbsA.1, medications := medsA.1 })

/-- `get_current_condition`: last accumulated condition, if any. -/
def get_current_condition (ctx : StoredContext) : Option String :=
  ctx.conditions.getLast?

/-- `clear_conversation`: resets both stored context and history. -/
def clear_conversation_context : StoredContext :=
  { conditions := [], herbs := [], medications := [] }

example :
    update_context { conditions := [], herbs := ["ginger"], medications := ["warfarin"] }
      "i stopped taking warfarin" =
    ({ added := [], removed := ["medication: warfarin"] },
     { conditions := [], herbs := ["ginger"], medications := [] }) := by decide

example :
    (update_context { conditions := [], herbs := [], medications := [] }
      "I am taking turmeric for my joint pain").2 =
    { conditions := ["joint pain"], herbs := ["turmeric"], medications := [] } := by decide

/-! ## Response generation (`generation/generate_response.py`) -/

/-- Outcome of the external `make_openai_request` collaborator.

Modelled from the spec: `rag_service/openai_service.py` is not part of the
sources; §6 gives the Generation Service contract
`complete(prompt) → {text, tokens} | failure(reason)` with the caller
applying a retry policy and reporting the retry count.  `success` is a
returned completion with usage statistics, `successNoUsage` one whose
`usage` attribute is absent, `failure` the `(None, exception, retries)`
return, and `raised` an exception escaping `make_openai_request`. -/
inductive OpenAIOutcome where
  | success (content : String) (promptTokens completionTokens totalTokens : Nat) (retries : Nat)
  | successNoUsage (content : String) (retries : Nat)
  | failure (exception : String) (retries : Nat)
  | raised (exception : String)
deriving Repr, DecidableEq

/-- The response map built by `generate_query_response`. -/
structure GenResponseMap where
  response : String
  completion_tokens : Nat
  prompt_tokens : Nat
  total_tokens : Nat
  response_gen_exception : Option String
  response_gen_retries : Nat
deriving Repr, DecidableEq

/-- The apology used when `make_openai_request` returns no response. -/
def APOLOGY_NO_RESPONSE : String :=
  "I apologize, but I\x27m having trouble generating a response right now. Please try again in a moment."

/-- The apology used when generation raises. -/
def APOLOGY_ERROR : String := "I apologize, but I encountered an error.  Please try again."

/-- `generate_query_response`, as a function of the collaborator outcome.
Prompt construction feeds only the external service and so does not affect
the returned map; token counters are initialised to zero and only
overwritten when a usage record is present. -/
def generate_query_response (outcome : OpenAIOutcome) : GenResponseMap :=
  match outcome with
  | .success content p c t r =>
      { response := content, completion_tokens := c, prompt_tokens := p,
        total_tokens := t, response_gen_exception := none, response_gen_retries := r }
  | .successNoUsage content r =>
      { response := content, completion_tokens := 0, prompt_tokens := 0,
        total_tokens := 0, response_gen_exception := none, response_gen_retries := r }
  | .failure e r =>
      { response := APOLOGY_NO_RESPONSE, completion_tokens := 0, prompt_tokens := 0,
        total_tokens := 0, response_gen_exception := some e, response_gen_retries := r }
  | .raised e =>
      { response := APOLOGY_ERROR, completion_tokens := 0, prompt_tokens := 0,
        total_tokens := 0, response_gen_exception := some e, response_gen_retries := 0 }

/-! ## Pipeline orchestrator (`execute_rag_pipeline` in `execute_rag.py`) -/

/-- The user profile fields read by the pipeline. -/
structure Profile where
  allergies : List String
  medical_conditions : List String
  current_medications : List String
deriving Repr, DecidableEq

/-- One result record of the trust engine, as consumed by the pipeline
(`servvia2/trust_engine` is not part of the sources; the pipeline reads
`is_valid`, `is_hallucination`, `herb_name` and `interaction_note`). -/
structure TrustResult where
  herb_name : String
  is_valid : Bool
  is_hallucination : Bool
  interaction_note : Option String
deriving Repr, DecidableEq

/-- Outcome of a successful `trust_engine.verify_response` call.

Modelled from the spec: the trust engine is external validation
(`results, global_warnings`) whose internals the spec leaves out of the
core; only the pipeline's own filtering of its output is in scope. -/
structure TrustOutcome where
  results : List TrustResult
  global_warnings : List String
deriving Repr, DecidableEq

/-- Outcomes of all external collaborators consumed in one pipeline turn;
`none` models the collaborator raising (each call sits in a `try` block).
`formatValidationSection` stands for the trust engine's formatter and
`chrono` for the whole chronobiology section text. -/
structure Collaborators where
  rephrased : Option String
  retrieved : Option (List String)
  openai : OpenAIOutcome
  trust : Option TrustOutcome
  formatValidationSection : List TrustResult → List String → String
  chrono : Option String

/-- The orderings chosen by Python's `list(set(...))` for the three merge
expressions of STEP 4; theorems constrain them with `isSetListing`. -/
structure MergeListings where
  herbs : List String
  medications : List String
  conditions : List String
deriving Repr, DecidableEq

/-- Per-user pipeline state: stored context plus conversation history. -/
structure PipelineState where
  context : StoredContext
  history : List Message
deriving Repr, DecidableEq

/-- The `response_map` returned by `execute_rag_pipeline`; `Option` fields
are keys the Python dict carries only on some paths. -/
structure ResponseMap where
  generated_final_response : String
  intent : Option String
  emergency_type : Option String
  completion_tokens : Option Nat
  prompt_tokens : Option Nat
  total_tokens : Option Nat
  trust_engine_verified : Option Bool
  verified_count : Option Nat
deriving Repr, DecidableEq

/-- The `message_data_update` dict returned by `execute_rag_pipeline`. -/
structure MessageData where
  query : String
  response : String
  intent : Option String
  rephrased_query : Option String
  chunks_retrieved : Option Nat
  current_condition : Option String
deriving Repr, DecidableEq

/-- Everything one turn produces. -/
structure PipelineOutput where
  response_map : ResponseMap
  message_data : MessageData
  state : PipelineState
deriving Repr, DecidableEq

/-- STEP 4's stopped-medication extraction:
`[r.replace('medication: ', '').lower() for r in removed if 'medication:' in r]`. -/
def stopped_medications (removed : List String) : List String :=
  (removed.filter (fun r => strContains r "medication:")).map
    (fun r => pyLower (pyReplace r "medication: " ""))

/-- STEP 4's current-condition selection: first condition extracted this
turn, else the last element of the merged condition listing, else none. -/
def select_current_condition (currentConds allConds : List String) : Option String :=
  match currentConds with
  | c :: _ => some c
  | [] => allConds.getLast?

/-- One safety-instruction block of STEP 5 (the f-string body). -/
def safety_block (w : InteractionWarning) : String :=
  "\n**" ++ w.severity ++ " SEVERITY - DO NOT RECOMMEND " ++ pyUpper w.herb ++ "**\n" ++
  "User is taking: " ++ w.medication ++ "\n" ++
  "Risk: " ++ w.reason ++ "\n" ++
  "Safe alternatives to suggest: " ++ String.intercalate ", " w.alternatives ++ "\n\n" ++
  "You MUST:\n" ++
  "1.  Clearly state that " ++ w.herb ++ " should NOT be used with " ++ w.medication ++ "\n" ++
  "2.  Explain the specific risk in simple terms\n" ++
  "3.  Recommend these safe alternatives instead\n\n"

/-- STEP 5's full safety-instruction text for a non-empty warning list. -/
def safety_instructions_text (ws : List InteractionWarning) : String :=
  ws.foldl (fun acc w => acc ++ safety_block w) "\n\n🚨 CRITICAL SAFETY ALERTS 🚨\n"

/-- STEP 5: interactions are only evaluated when both merged lists are
non-empty, and safety instructions only assembled when warnings exist. -/
def interaction_step (allHerbs allMedications : List String) :
    List InteractionWarning × String :=
  if !allHerbs.isEmpty && !allMedications.isEmpty then
    let ws := check_interactions allHerbs allMedications
    if !ws.isEmpty then (ws, safety_instructions_text ws) else (ws, "")
  else ([], "")

/-- STEP 9's filter of trust-engine global warnings: drop any warning whose
lower-cased text contains a stopped medication. -/
def filter_global_warnings (stopped warnings : List String) : List String :=
  warnings.filter (fun w => !(stopped.any (fun s => strContains (pyLower w) s)))

/-- STEP 9's blanking of a result's interaction note when it mentions a
stopped medication. -/
def filter_interaction_note (stopped : List String) (note : Option String) : Option String :=
  match note with
  | none => none
  | some n => if stopped.any (fun s => strContains (pyLower n) s) then none else some n

/-- The herbs the trust engine verified: `is_valid and not is_hallucination`. -/
def verified_herbs (results : List TrustResult) : List String :=
  (results.filter (fun r => r.is_valid && !r.is_hallucination)).map (fun r => r.herb_name)

/-- STEP 7's chunk aggregation: at most five chunk texts joined by blank
lines (`retrieved` is `none` when retrieval raised or returned nothing). -/
def retrieval_step (retrieved : Option (List String)) : List String × String :=
  match retrieved with
  | none => ([], "")
  | some chunks => (chunks, String.intercalate "\n\n" (chunks.take 5))

/-- `execute_rag_pipeline(query, ...)`.  The emergency short-circuit returns
before extraction, context update, message append, retrieval and
generation; the normal path follows STEPs 2-10 with collaborator outcomes
supplied by `co` and Python's set orderings by `L`.  Embeds the
configuration with conversation tracking enabled and a user id present. -/
def execute_rag_pipeline (query : String) (profile : Option Profile)
    (st : PipelineState) (L : MergeListings) (co : Collaborators) : PipelineOutput :=
  let profile_medications := (profile.map (fun p => p.current_medications)).getD []
  match check_emergency query with
  | some etype =>
    let resp := get_emergency_response etype
    { response_map :=
        { generated_final_response := resp, intent := some "emergency",
          emergency_type := some etype, completion_tokens := none, prompt_tokens := none,
          total_tokens := none, trust_engine_verified := none, verified_count := none },
      message_data :=
        { query := query, response := resp, intent := some "emergency",
          rephrased_query := none, chunks_retrieved := none, current_condition := none },
      state := st }
  | none =>
    let current_entities := extract_entities query
    let changesCtx := update_context st.context query
    let context_changes := changesCtx.1
    let accumulated := changesCtx.2
    let hist1 := add_message st.history { role := "user", content := query }
    let stopped := stopped_medications context_changes.removed
    let all_herbs := L.herbs
    let all_medications := L.medications
    let all_conditions := L.conditions
    let current_condition := select_current_condition current_entities.conditions all_conditions
    let interactions := interaction_step all_herbs all_medications
    let rephrased_query := co.rephrased.getD query
    let chunks := retrieval_step co.retrieved
    let generated := generate_query_response co.openai
    let llm0 := generated.response
    let hist2 := add_message hist1 { role := "assistant", content := llm0 }
    let trustStep :
        String × StoredContext × Option Bool × Option Nat :=
      match co.trust with
      | none => (llm0, accumulated, some false, none)
      | some t =>
        let verified := verified_herbs t.results
        let gw := if !stopped.isEmpty then filter_global_warnings stopped t.global_warnings
                  else t.global_warnings
        let results := if !stopped.isEmpty then
            t.results.map (fun r => { r with interaction_note := filter_interaction_note stopped r.interaction_note })
          else t.results
        let ctx2 := verified.foldl (fun c h => (update_context c ("recommended " ++ h)).2) accumulated
        let llm1 := if !t.results.isEmpty then llm0 ++ co.formatValidationSection results gw else llm0
        (llm1, ctx2, some true, some verified.length)
    let verifiedNonEmpty := match co.trust with
      | none => false
      | some t => !(verified_herbs t.results).isEmpty
    let llm2 := match verifiedNonEmpty, co.chrono with
      | true, some ctext => trustStep.1 ++ ctext
      | _, _ => trustStep.1
    { response_map :=
        { generated_final_response := llm2, intent := none, emergency_type := none,
          completion_tokens := some generated.completion_tokens,
          prompt_tokens := some generated.prompt_tokens,
          total_tokens := some generated.total_tokens,
          trust_engine_verified := trustStep.2.2.1,
          verified_count := trustStep.2.2.2 },
      message_data :=
        { query := query, response := llm2, intent := none,
          rephrased_query := some rephrased_query,
          chunks_retrieved := some chunks.1.length,
          current_condition := current_condition },
      state := { context := trustStep.2.1, history := hist2 } }

/-- The merge rule for medications exactly as the spec words it: union of
profile, accumulated-context and current-turn medications, minus every
medication named in this turn's removed set (stated on the concatenation;
membership is what the claims compare). -/
def specMergedMedications (profileMeds accMeds curMeds stopped : List String) : List String :=
  (accMeds ++ curMeds ++ profileMeds).filter (fun m => !(stopped.contains m))

/-! ## Helper lemmas -/

/-- `find?` returns the element at the first index whose predicate holds. -/
theorem list_find?_eq_of_first {α : Type} (p : α → Bool) (l : List α) :
    ∀ (i : Nat) (hi : i < l.length), p (l.get ⟨i, hi⟩) = true →
      (∀ (j : Nat) (hj : j < l.length), j < i → p (l.get ⟨j, hj⟩) = false) →
      l.find? p = some (l.get ⟨i, hi⟩) := by
  induction l with
  | nil => intro i hi; exact absurd hi (by simp)
  | cons a as ih =>
    intro i hi hp hprev
    cases i with
    | zero => exact List.find?_cons_of_pos _ hp
    | succ n =>
      have ha : p a = false := hprev 0 (by simp) (Nat.succ_pos n)
      rw [List.find?_cons_of_neg _ (by simp [ha])]
      exact ih n (by simpa using hi) hp
        (fun j hj hlt => hprev (j + 1) (by simpa using hj) (by omega))

/-- `find?` misses a list all of whose elements fail the predicate. -/
theorem list_find?_eq_none_of_all {α : Type} (p : α → Bool) (l : List α)
    (h : ∀ e ∈ l, p e = false) : l.find? p = none :=
  List.find?_eq_none.mpr (fun x hx => by simp [h x hx])

/-- The history window step: feeding one more message to `add_message`
slides the 20-message window. -/
theorem add_message_drop_window (l : List Message) (m : Message) :
    add_message (l.drop (l.length - MAX_HISTORY)) m =
      (l ++ [m]).drop ((l ++ [m]).length - MAX_HISTORY) := by
  unfold add_message MAX_HISTORY
  rcases Nat.lt_or_ge l.length 20 with hlt | hge
  · rw [Nat.sub_eq_zero_of_le (Nat.le_of_lt hlt), List.drop_zero]
    rw [if_neg (by simp; omega)]
    rw [Nat.sub_eq_zero_of_le (by simp; omega), List.drop_zero]
  · have hlen : (l.drop (l.length - 20)).length = 20 := by simp; omega
    rw [if_pos (by simp [hlen])]
    have hL1 : (l.drop (l.length - 20) ++ [m]).length - 20 = 1 := by
      simp [hlen]
    have hR : (l ++ [m]).length - 20 = l.length - 19 := by simp
    rw [hL1, hR]
    rw [List.drop_append_of_le_length (by omega : 1 ≤ (l.drop (l.length - 20)).length)]
    rw [List.drop_drop]
    rw [List.drop_append_of_le_length (by omega : l.length - 19 ≤ l.length)]
    congr 2
    omega

/-- Folding `add_message` over a message list keeps exactly the trailing
20-message window. -/
theorem foldl_add_message_window :
    ∀ (msgs l : List Message),
      msgs.foldl add_message (l.drop (l.length - MAX_HISTORY)) =
        (l ++ msgs).drop ((l ++ msgs).length - MAX_HISTORY) := by
  intro msgs
  induction msgs with
  | nil => intro l; simp
  | cons m ms ih =>
    intro l
    have h1 : (l ++ m :: ms) = (l ++ [m]) ++ ms := by simp
    rw [List.foldl_cons, add_message_drop_window, ih (l ++ [m]), h1]

/-- Starting from an empty store, the stored history is the trailing window. -/
theorem foldl_add_message_nil (msgs : List Message) :
    msgs.foldl add_message [] = msgs.drop (msgs.length - MAX_HISTORY) := by
  have := foldl_add_message_window msgs []
  simpa using this

/-- The trailing window always holds the appended message last. -/
theorem add_message_getLast? (h : List Message) (m : Message) :
    (add_message h m).getLast? = some m := by
  simp only [add_message]
  split
  · next hgt =>
    have hk : h.length + 1 - MAX_HISTORY ≤ h.length := by
      unfold MAX_HISTORY; omega
    rw [show (h ++ [m]).length - MAX_HISTORY = h.length + 1 - MAX_HISTORY by simp]
    rw [List.drop_append_of_le_length hk]
    exact List.getLast?_concat _
  · exact List.getLast?_concat _

/-- The removal fold over medication entries only ever erases. -/
theorem foldl_removalStepMed_subset (ql : String) :
    ∀ (l : List (String × List String)) (st : List String × List String),
      (l.foldl (removalStepMed ql) st).1 ⊆ st.1 := by
  intro l
  induction l with
  | nil => intro st; exact fun a ha => ha
  | cons e es ih =>
    intro st
    refine List.Subset.trans (ih (removalStepMed ql st e)) ?_
    unfold removalStepMed
    split
    · split
      · exact List.erase_subset _ _
      · exact fun a ha => ha
    · exact fun a ha => ha

/-- The removal fold over herb names only ever erases. -/
theorem foldl_removalStepHerb_subset (ql : String) :
    ∀ (l : List String) (st : List String × List String),
      (l.foldl (removalStepHerb ql) st).1 ⊆ st.1 := by
  intro l
  induction l with
  | nil => intro st; exact fun a ha => ha
  | cons e es ih =>
    intro st
    refine List.Subset.trans (ih (removalStepHerb ql st e)) ?_
    unfold removalStepHerb
    split
    · split
      · exact List.erase_subset _ _
      · exact fun a ha => ha
    · exact fun a ha => ha

/-- The condition-addition fold only ever appends. -/
theorem foldl_additionStepCond_mem (ql : String) (c : String) :
    ∀ (l : List (String × List String)) (st : List String × List String),
      c ∈ st.1 → c ∈ (l.foldl (additionStepCond ql) st).1 := by
  intro l
  induction l with
  | nil => intro st h; exact h
  | cons e es ih =>
    intro st h
    refine ih (additionStepCond ql st e) ?_
    unfold additionStepCond
    split
    · split
      · exact h
      · exact List.mem_append_left _ h
    · exact h

/-- Every warning of `check_interactions` decomposes into a stored herb, its
database entry and a matched medication. -/
theorem check_interactions_mem_elim {H M : List String} {w : InteractionWarning}
    (hw : w ∈ check_interactions H M) :
    ∃ herb, herb ∈ H ∧ ∃ data, dbFind (pyStrip (pyLower herb)) = some data ∧
      ∃ med, med ∈ M ∧ medWarning herb data med = some w := by
  unfold check_interactions at hw
  split at hw
  · simp at hw
  · rcases List.mem_flatMap.mp hw with ⟨herb, hherb, hwmem⟩
    unfold herbWarnings at hwmem
    rcases hdb : dbFind (pyStrip (pyLower herb)) with _ | data
    · rw [hdb] at hwmem; simp at hwmem
    · rw [hdb] at hwmem
      rcases List.mem_filterMap.mp hwmem with ⟨med, hmed, heq⟩
      exact ⟨herb, hherb, data, hdb, med, hmed, heq⟩

/-- Conversely, a stored herb with a database entry and a matched medication
yields a warning of `check_interactions`. -/
theorem check_interactions_mem_intro {H M : List String} {w : InteractionWarning}
    {herb med : String} {data : InteractionData} (hherb : herb ∈ H)
    (hdb : dbFind (pyStrip (pyLower herb)) = some data) (hmed : med ∈ M)
    (heq : medWarning herb data med = some w) :
    w ∈ check_interactions H M := by
  unfold check_interactions
  have hH : H ≠ [] := List.ne_nil_of_mem hherb
  have hM : M ≠ [] := List.ne_nil_of_mem hmed
  rw [if_neg (by simp [List.isEmpty_iff, hH, hM])]
  refine List.mem_flatMap.mpr ⟨herb, hherb, ?_⟩
  unfold herbWarnings
  rw [hdb]
  exact List.mem_filterMap.mpr ⟨med, hmed, heq⟩

/-- The herb field of an emitted warning is the herb that produced it. -/
theorem medWarning_herb_eq {herb med : String} {data : InteractionData}
    {w : InteractionWarning} (heq : medWarning herb data med = some w) :
    w.herb = herb := by
  unfold medWarning at heq
  split at heq
  · cases heq; rfl
  · cases heq

/-! ## Claim theorems -/

/-- C1.  Whenever the emergency classifier returns a category, the pipeline
returns that category's canned emergency response (`get_emergency_response`
falls back to the generic template for a category without canned text) with
intent `emergency`, and nothing else happens: the returned state is the
input state unchanged (no context update, no message append), no token
accounting occurs, and the output does not depend on the merge listings or
on any collaborator outcome (no retrieval, no generation). -/
theorem c1_emergency_short_circuit (query : String) (profile : Option Profile)
    (st : PipelineState) (L : MergeListings) (co : Collaborators) (etype : String)
    (h : check_emergency query = some etype) :
    execute_rag_pipeline query profile st L co =
      { response_map :=
          { generated_final_response := get_emergency_response etype,
            intent := some "emergency", emergency_type := some etype,
            completion_tokens := none, prompt_tokens := none, total_tokens := none,
            trust_engine_verified := none, verified_count := none },
        message_data :=
          { query := query, response := get_emergency_response etype,
            intent := some "emergency", rephrased_query := none,
            chunks_retrieved := none, current_condition := none },
        state := st } := by
  unfold execute_rag_pipeline
  rw [h]

/-- C1 witness: scenario D, evaluated at a concrete non-trivial state; the
context and history come back untouched. -/
theorem c1_emergency_short_circuit_witness :
    check_emergency "he is not breathing, start CPR" = some "cardiac_arrest" ∧
    execute_rag_pipeline "he is not breathing, start CPR" none
      { context := { conditions := ["headache"], herbs := ["ginger"], medications := ["warfarin"] },
        history := [{ role := "user", content := "hi" }] }
      { herbs := [], medications := [], conditions := [] }
      { rephrased := none, retrieved := none, openai := OpenAIOutcome.failure "down" 2,
        trust := none, formatValidationSection := fun _ _ => "", chrono := none } =
      { response_map :=
          { generated_final_response := get_emergency_response "cardiac_arrest",
            intent := some "emergency", emergency_type := some "cardiac_arrest",
            completion_tokens := none, prompt_tokens := none, total_tokens := none,
            trust_engine_verified := none, verified_count := none },
        message_data :=
          { query := "he is not breathing, start CPR",
            response := get_emergency_response "cardiac_arrest",
            intent := some "emergency", rephrased_query := none,
            chunks_retrieved := none, current_condition := none },
        state :=
          { context := { conditions := ["headache"], herbs := ["ginger"], medications := ["warfarin"] },
            history := [{ role := "user", content := "hi" }] } } :=
  ⟨by decide, c1_emergency_short_circuit _ _ _ _ _ _ (by decide)⟩

/-- C4.  `check_emergency` scans the categories in the fixed priority order
cardiac arrest > choking > cardiac > stroke > mental health > poisoning >
allergic reaction > severe bleeding: a query matching category `i` and no
earlier category yields category `i`; a query matching no category yields
`none`; and the scan order is exactly that priority list. -/
theorem c4_emergency_priority :
    (∀ (q : String) (i : Nat) (hi : i < emergency_keywords.length),
        matchesCategory (pyLower q) (emergency_keywords.get ⟨i, hi⟩) = true →
        (∀ (j : Nat) (hj : j < emergency_keywords.length), j < i →
            matchesCategory (pyLower q) (emergency_keywords.get ⟨j, hj⟩) = false) →
        check_emergency q = some (emergency_keywords.get ⟨i, hi⟩).1) ∧
    (∀ q : String, (∀ e ∈ emergency_keywords, matchesCategory (pyLower q) e = false) →
        check_emergency q = none) ∧
    emergency_keywords.map (fun e => e.1) =
      ["cardiac_arrest", "choking", "cardiac", "stroke", "mental_health",
       "poisoning", "allergic_reaction", "severe_bleeding"] := by
  refine ⟨?_, ?_, by decide⟩
  · intro q i hi hm hprev
    unfold check_emergency
    rw [list_find?_eq_of_first _ _ i hi hm hprev]
    rfl
  · intro q hall
    unfold check_emergency
    rw [list_find?_eq_none_of_all _ _ hall]
    rfl

/-- C4 witness: a query matching both the cardiac and the stroke lexicons
(and neither of the two higher-priority ones) classifies as cardiac, and a
harmless query classifies as no emergency. -/
theorem c4_emergency_priority_witness :
    check_emergency "I have chest pain and face drooping" = some "cardiac" ∧
    check_emergency "good morning" = none :=
  ⟨c4_emergency_priority.1 "I have chest pain and face drooping" 2 (by decide)
      (by decide) (by decide),
   c4_emergency_priority.2.1 "good morning" (by decide)⟩

/-- C6.  On a removal-context query (one containing a removal phrase),
`update_context` adds nothing: the delta's `added` list is empty, the
stored conditions are untouched, and the stored herb and medication sets
only shrink. -/
theorem c6_removal_turn_adds_nothing (ctx : StoredContext) (query : String)
    (h : REMOVAL_KEYWORDS.any (fun kw => strContains (pyLower query) kw) = true) :
    (update_context ctx query).1.added = [] ∧
    (update_context ctx query).2.conditions = ctx.conditions ∧
    (update_context ctx query).2.herbs ⊆ ctx.herbs ∧
    (update_context ctx query).2.medications ⊆ ctx.medications := by
  simp only [update_context, h]
  rw [if_pos trivial]
  exact ⟨rfl, rfl, foldl_removalStepHerb_subset _ _ _, foldl_removalStepMed_subset _ _ _⟩

/-- C6 witness: a concrete removal turn over a populated context. -/
theorem c6_removal_turn_adds_nothing_witness :
    REMOVAL_KEYWORDS.any (fun kw =>
        strContains (pyLower "i have stopped taking warfarin and ginger") kw) = true ∧
    ((update_context { conditions := ["headache"], herbs := ["ginger"], medications := ["warfarin"] }
        "i have stopped taking warfarin and ginger").1.added = [] ∧
      (update_context { conditions := ["headache"], herbs := ["ginger"], medications := ["warfarin"] }
        "i have stopped taking warfarin and ginger").2.conditions = ["headache"] ∧
      (update_context { conditions := ["headache"], herbs := ["ginger"], medications := ["warfarin"] }
        "i have stopped taking warfarin and ginger").2.herbs ⊆ ["ginger"] ∧
      (update_context { conditions := ["headache"], herbs := ["ginger"], medications := ["warfarin"] }
        "i have stopped taking warfarin and ginger").2.medications ⊆ ["warfarin"]) :=
  ⟨by decide,
   c6_removal_turn_adds_nothing
     { conditions := ["headache"], herbs := ["ginger"], medications := ["warfarin"] }
     "i have stopped taking warfarin and ginger" (by decide)⟩

/-- C10.  `update_context` never removes a condition: every stored condition
survives every call (removal turns only touch herbs and medications), and
only `clear_conversation` empties the accumulated condition list. -/
theorem c10_conditions_never_removed :
    (∀ (ctx : StoredContext) (query : String) (c : String),
        c ∈ ctx.conditions → c ∈ (update_context ctx query).2.conditions) ∧
    clear_conversation_context.conditions = [] := by
  refine ⟨?_, rfl⟩
  intro ctx query c hc
  simp only [update_context]
  rcases hrem : REMOVAL_KEYWORDS.any (fun kw => strContains (pyLower query) kw) with _ | _
  · rw [if_neg (by simp)]
    exact foldl_additionStepCond_mem _ _ _ _ hc
  · rw [if_pos rfl]
    exact hc

/-- C10 witness: an addition turn extends but never drops the stored
conditions; clearing empties them. -/
theorem c10_conditions_never_removed_witness :
    "headache" ∈ (update_context
        { conditions := ["headache"], herbs := [], medications := [] }
        "now i also have a fever").2.conditions ∧
    clear_conversation_context.conditions = [] :=
  ⟨c10_conditions_never_removed.1
      { conditions := ["headache"], herbs := [], medications := [] }
      "now i also have a fever" "headache" (by decide),
   c10_conditions_never_removed.2⟩

/-- C7.  Starting from an empty store, any sequence of `add_message` calls
leaves exactly the trailing `MAX_HISTORY`-message window: the stored history
is the suffix of the appended sequence (FIFO eviction, original order),
never longer than 20, and `get_formatted_history` renders the most recent
at most 10 of those messages, again in original order. -/
theorem c7_history_fifo_bounded (msgs : List Message) :
    get_history (msgs.foldl add_message []) = msgs.drop (msgs.length - MAX_HISTORY) ∧
    (msgs.foldl add_message []).length ≤ MAX_HISTORY ∧
    List.IsSuffix (msgs.foldl add_message []) msgs ∧
    get_formatted_history (msgs.foldl add_message []) 10 =
      String.intercalate "\n"
        (((msgs.foldl add_message []).drop ((msgs.foldl add_message []).length - 10)).map
          formatMessage) ∧
    List.IsSuffix
      ((msgs.foldl add_message []).drop ((msgs.foldl add_message []).length - 10))
      (msgs.foldl add_message []) := by
  have hfold := foldl_add_message_nil msgs
  refine ⟨hfold, ?_, ?_, ?_, ?_⟩
  · rw [hfold, List.length_drop]; omega
  · rw [hfold]; exact List.drop_suffix _ _
  · unfold get_formatted_history
    split
    · next hemp =>
      rw [List.isEmpty_iff.mp hemp]
      rfl
    · rfl
  · exact List.drop_suffix _ _

/-- C8.  `check_interactions` is monotonic: enlarging the medication set
preserves every warning, and no warning of a herb set with `h` filtered out
mentions `h` as its herb. -/
theorem c8_interaction_monotonic (H M Mp : List String) (h : String)
    (hsub : M.all (fun m => Mp.contains m) = true) :
    (∀ w ∈ check_interactions H M, w ∈ check_interactions H Mp) ∧
    (∀ w ∈ check_interactions (H.filter (fun x => !(x == h))) M, w.herb ≠ h) := by
  constructor
  · intro w hw
    rcases check_interactions_mem_elim hw with ⟨herb, hherb, data, hdb, med, hmed, heq⟩
    have hmed' : med ∈ Mp := by
      have := List.all_eq_true.mp hsub med hmed
      exact List.elem_iff.mp this
    exact check_interactions_mem_intro hherb hdb hmed' heq
  · intro w hw
    rcases check_interactions_mem_elim hw with ⟨herb, hherb, data, hdb, med, hmed, heq⟩
    have hne : (herb == h) = false := by
      have := (List.mem_filter.mp hherb).2
      simpa using this
    rw [medWarning_herb_eq heq]
    intro hcontra
    rw [hcontra] at hne
    simp at hne

/-- C8 witness: adding warfarin to the medication set keeps the existing
ginger-aspirin warning, and filtering ginger out of the herb set leaves no
warning naming ginger. -/
theorem c8_interaction_monotonic_witness :
    (∀ w ∈ check_interactions ["ginger", "turmeric"] ["aspirin"],
        w ∈ check_interactions ["ginger", "turmeric"] ["aspirin", "warfarin"]) ∧
    (∀ w ∈ check_interactions
        ((["ginger", "turmeric"] : List String).filter (fun x => !(x == "ginger")))
        ["aspirin"], w.herb ≠ "ginger") :=
  c8_interaction_monotonic ["ginger", "turmeric"] ["aspirin"] ["aspirin", "warfarin"]
    "ginger" (by decide)

set_option maxRecDepth 4000

/-- C2 (code evaluation at the failing input).  On the turn
"i stopped taking warfarin" over stored context {herbs: ginger,
medications: warfarin} and an empty profile, warfarin lands in this turn's
removed set, yet the merged medication list the pipeline hands to the
interaction evaluator — the (unique) set listing of
accumulated ++ current ++ profile — still contains warfarin, and the
evaluator emits a warfarin warning; the merge rule as the spec words it
(union minus removed) excludes warfarin.  STEP 4 of the source builds
`all_medications` without subtracting `stopped_medications`, contradicting
its own comment "excluding stopped ones". -/
theorem c2_merged_medications_include_removed :
    stopped_medications (update_context
        { conditions := [], herbs := ["ginger"], medications := ["warfarin"] }
        "i stopped taking warfarin").1.removed = ["warfarin"] ∧
    isSetListing
      ((update_context { conditions := [], herbs := ["ginger"], medications := ["warfarin"] }
          "i stopped taking warfarin").2.medications ++
        (extract_entities "i stopped taking warfarin").medications ++ [])
      ["warfarin"] = true ∧
    isSetListing
      ((update_context { conditions := [], herbs := ["ginger"], medications := ["warfarin"] }
          "i stopped taking warfarin").2.herbs ++
        (extract_entities "i stopped taking warfarin").herbs)
      ["ginger"] = true ∧
    (interaction_step ["ginger"] ["warfarin"]).1.map (fun w => w.medication) = ["warfarin"] ∧
    "warfarin" ∉ specMergedMedications []
      (update_context { conditions := [], herbs := ["ginger"], medications := ["warfarin"] }
          "i stopped taking warfarin").2.medications
      (extract_entities "i stopped taking warfarin").medications
      ["warfarin"] := by decide

/-- C3 counterexample.  Same failing turn as C2: warfarin is in this turn's
removed set, yet the freshly generated interaction warnings still contain a
warning whose medication matches warfarin, and the safety instructions
assembled from them (which are injected into the generation prompt) mention
warfarin — the suppression filter of STEP 9 never touches them. -/
theorem c3_fresh_warning_for_removed_medication :
    stopped_medications (update_context
        { conditions := [], herbs := ["ginger"], medications := ["warfarin"] }
        "i stopped taking warfarin").1.removed = ["warfarin"] ∧
    ((interaction_step ["ginger"] ["warfarin"]).1.filter
        (fun w => strContains (pyLower w.medication) "warfarin")) ≠ [] ∧
    strContains (pyLower (interaction_step ["ginger"] ["warfarin"]).2) "warfarin" = true := by
  decide

/-- C3 (amended).  The suppression the orchestrator actually performs: every
trust-engine global warning surviving `filter_global_warnings` is free of
every removed medication (case-insensitive substring), and every
interaction note surviving `filter_interaction_note` likewise; freshly
generated interaction warnings are not filtered against the removed set. -/
theorem c3_trust_warning_suppression (stopped gws : List String) (note : Option String) :
    (∀ w ∈ filter_global_warnings stopped gws, ∀ s ∈ stopped,
        strContains (pyLower w) s = false) ∧
    (∀ n, filter_interaction_note stopped note = some n → ∀ s ∈ stopped,
        strContains (pyLower n) s = false) := by
  constructor
  · intro w hw s hs
    have hp := (List.mem_filter.mp hw).2
    have hb : (stopped.any fun s => strContains (pyLower w) s) = false := by
      simpa using hp
    simpa using List.any_eq_false.mp hb s hs
  · intro n hn s hs
    rcases note with _ | n0
    · exact absurd hn (by simp [filter_interaction_note])
    · have hn' : (if (stopped.any fun s => strContains (pyLower n0) s) = true then none
          else some n0) = some n := hn
      by_cases hany : (stopped.any fun s => strContains (pyLower n0) s) = true
      · rw [if_pos hany] at hn'; cases hn'
      · rw [if_neg hany] at hn'
        cases hn'
        have hb := List.any_eq_false.mp (by simpa using hany)
        simpa using hb s hs

/-- C3 witness: with warfarin removed this turn, a surviving trust warning
and a surviving interaction note are both warfarin-free. -/
theorem c3_trust_warning_suppression_witness :
    strContains (pyLower "General advice: stay hydrated") "warfarin" = false ∧
    strContains (pyLower "Take with food") "warfarin" = false :=
  ⟨(c3_trust_warning_suppression ["warfarin"]
      ["⚠️ ginger interacts with WARFARIN", "General advice: stay hydrated"] none).1
      "General advice: stay hydrated" (by decide) "warfarin" (by decide),
   (c3_trust_warning_suppression ["warfarin"] [] (some "Take with food")).2
      "Take with food" (by decide) "warfarin" (by decide)⟩

/-- C5 (code evaluation at the failing input).  With accumulated conditions
[headache, fever] (fever most recent) and the condition-free query
"what should i do", the listing [fever, headache] is a legitimate value of
Python's `list(set(...))` (CPython string hashing is seed-randomised), and
the pipeline's selection then returns `headache`, not the most recently
accumulated `fever`; the selection is still computed although retrieval and
generation both fail in this run. -/
theorem c5_current_condition_hash_order :
    (extract_entities "what should i do").conditions = [] ∧
    (update_context { conditions := ["headache", "fever"], herbs := [], medications := [] }
        "what should i do").2.conditions = ["headache", "fever"] ∧
    isSetListing
      ((update_context { conditions := ["headache", "fever"], herbs := [], medications := [] }
          "what should i do").2.conditions ++
        (extract_entities "what should i do").conditions)
      ["fever", "headache"] = true ∧
    select_current_condition (extract_entities "what should i do").conditions
      ["fever", "headache"] = some "headache" ∧
    (["headache", "fever"] : List String).getLast? = some "fever" ∧
    ("headache" : String) ≠ "fever" ∧
    (execute_rag_pipeline "what should i do" none
        { context := { conditions := ["headache", "fever"], herbs := [], medications := [] },
          history := [] }
        { herbs := [], medications := [], conditions := ["fever", "headache"] }
        { rephrased := none, retrieved := none, openai := OpenAIOutcome.raised "boom",
          trust := none, formatValidationSection := fun _ _ => "",
          chrono := none }).message_data.current_condition = some "headache" := by
  decide

/-- C9.  When the generation collaborator fails (returns no completion after
its retries, or raises), the pipeline still returns a well-formed envelope:
the response is the corresponding fixed apology string, all three token
counters are zero, and the turn is still recorded in conversation history
with the apology text as the assistant message.  (The trust hypothesis
states that validating an apology yields no results — the engine either
finds nothing to verify or fails itself — so nothing is appended to it.) -/
theorem c9_generation_failure_graceful (query : String) (profile : Option Profile)
    (st : PipelineState) (L : MergeListings) (co : Collaborators)
    (hemerg : check_emergency query = none)
    (hgen : (∃ e r, co.openai = OpenAIOutcome.failure e r) ∨
      (∃ e, co.openai = OpenAIOutcome.raised e))
    (htrust : co.trust = none ∨
      ∃ gws, co.trust = some { results := [], global_warnings := gws }) :
    ((generate_query_response co.openai).response = APOLOGY_NO_RESPONSE ∨
      (generate_query_response co.openai).response = APOLOGY_ERROR) ∧
    (execute_rag_pipeline query profile st L co).response_map.generated_final_response =
      (generate_query_response co.openai).response ∧
    (execute_rag_pipeline query profile st L co).response_map.prompt_tokens = some 0 ∧
    (execute_rag_pipeline query profile st L co).response_map.completion_tokens = some 0 ∧
    (execute_rag_pipeline query profile st L co).response_map.total_tokens = some 0 ∧
    (execute_rag_pipeline query profile st L co).state.history.getLast? =
      some { role := "assistant", content := (generate_query_response co.openai).response } ∧
    (execute_rag_pipeline query profile st L co).message_data.response =
      (generate_query_response co.openai).response ∧
    (execute_rag_pipeline query profile st L co).message_data.query = query := by
  have hresp : (generate_query_response co.openai).response = APOLOGY_NO_RESPONSE ∨
      (generate_query_response co.openai).response = APOLOGY_ERROR := by
    rcases hgen with ⟨e, r, hoai⟩ | ⟨e, hoai⟩ <;> rw [hoai] <;>
      [exact Or.inl rfl; exact Or.inr rfl]
  have htok : (generate_query_response co.openai).prompt_tokens = 0 ∧
      (generate_query_response co.openai).completion_tokens = 0 ∧
      (generate_query_response co.openai).total_tokens = 0 := by
    rcases hgen with ⟨e, r, hoai⟩ | ⟨e, hoai⟩ <;> rw [hoai] <;> exact ⟨rfl, rfl, rfl⟩
  refine ⟨hresp, ?_, ?_, ?_, ?_, ?_, ?_, ?_⟩ <;>
    simp only [execute_rag_pipeline, hemerg] <;>
    rcases htrust with htr | ⟨gws, htr⟩ <;>
    (try simp only [htr, verified_herbs, List.filter_nil, List.map_nil, List.isEmpty_nil,
      Bool.not_true, List.foldl_nil, htok.1, htok.2.1, htok.2.2]) <;>
    first
      | rfl
      | trivial
      | exact add_message_getLast? _ _

/-- C9 witness: a concrete turn whose generation collaborator times out. -/
theorem c9_generation_failure_graceful_witness :
    ((generate_query_response (OpenAIOutcome.failure "timeout" 3)).response = APOLOGY_NO_RESPONSE ∨
      (generate_query_response (OpenAIOutcome.failure "timeout" 3)).response = APOLOGY_ERROR) ∧
    (execute_rag_pipeline "hello" none
        { context := { conditions := [], herbs := [], medications := [] }, history := [] }
        { herbs := [], medications := [], conditions := [] }
        { rephrased := none, retrieved := none, openai := OpenAIOutcome.failure "timeout" 3,
          trust := none, formatValidationSection := fun _ _ => "",
          chrono := none }).response_map.generated_final_response =
      (generate_query_response (OpenAIOutcome.failure "timeout" 3)).response ∧
    (execute_rag_pipeline "hello" none
        { context := { conditions := [], herbs := [], medications := [] }, history := [] }
        { herbs := [], medications := [], conditions := [] }
        { rephrased := none, retrieved := none, openai := OpenAIOutcome.failure "timeout" 3,
          trust := none, formatValidationSection := fun _ _ => "",
          chrono := none }).response_map.prompt_tokens = some 0 ∧
    (execute_rag_pipeline "hello" none
        { context := { conditions := [], herbs := [], medications := [] }, history := [] }
        { herbs := [], medications := [], conditions := [] }
        { rephrased := none, retrieved := none, openai := OpenAIOutcome.failure "timeout" 3,
          trust := none, formatValidationSection := fun _ _ => "",
          chrono := none }).response_map.completion_tokens = some 0 ∧
    (execute_rag_pipeline "hello" none
        { context := { conditions := [], herbs := [], medications := [] }, history := [] }
        { herbs := [], medications := [], conditions := [] }
        { rephrased := none, retrieved := none, openai := OpenAIOutcome.failure "timeout" 3,
          trust := none, formatValidationSection := fun _ _ => "",
          chrono := none }).response_map.total_tokens = some 0 ∧
    (execute_rag_pipeline "hello" none
        { context := { conditions := [], herbs := [], medications := [] }, history := [] }
        { herbs := [], medications := [], conditions := [] }
        { rephrased := none, retrieved := none, openai := OpenAIOutcome.failure "timeout" 3,
          trust := none, formatValidationSection := fun _ _ => "",
          chrono := none }).state.history.getLast? =
      some { role := "assistant",
             content := (generate_query_response (OpenAIOutcome.failure "timeout" 3)).response } ∧
    (execute_rag_pipeline "hello" none
        { context := { conditions := [], herbs := [], medications := [] }, history := [] }
        { herbs := [], medications := [], conditions := [] }
        { rephrased := none, retrieved := none, openai := OpenAIOutcome.failure "timeout" 3,
          trust := none, formatValidationSection := fun _ _ => "",
          chrono := none }).message_data.response =
      (generate_query_response (OpenAIOutcome.failure "timeout" 3)).response ∧
    (execute_rag_pipeline "hello" none
        { context := { conditions := [], herbs := [], medications := [] }, history := [] }
        { herbs := [], medications := [], conditions := [] }
        { rephrased := none, retrieved := none, openai := OpenAIOutcome.failure "timeout" 3,
          trust := none, formatValidationSection := fun _ _ => "",
          chrono := none }).message_data.query = "hello" :=
  c9_generation_failure_graceful "hello" none
    { context := { conditions := [], herbs := [], medications := [] }, history := [] }
    { herbs := [], medications := [], conditions := [] }
    { rephrased := none, retrieved := none, openai := OpenAIOutcome.failure "timeout" 3,
      trust := none, formatValidationSection := fun _ _ => "", chrono := none }
    (by decide) (Or.inl ⟨"timeout", 3, rfl⟩) (Or.inl rfl)
